import Mathlib

/-
Verification of the tdsProject1 repository (src/aiTest/curl.py, src/app.py)
against its natural-language specification.

The Python source is shallowly embedded: every network or library side
effect (requests.get / requests.post, pypdf, zipfile, selenium, the OpenAI
file-storage API) is an oracle field of an explicit world structure, where
Except.error models a raised Python exception and Except.ok a normal
return.  File-system effects (transient temp files) are modelled by
returning the set of files left on disk.  All functions are computable so
that witnesses can evaluate them on concrete inputs.
-/

deriving instance DecidableEq for Except

namespace TdsProject1

/-- Python string slicing s[:n], counted in code points, as used by the
truncations text[:20000], content[:8000] and output[:25000] in curl.py. -/
def pyslice (s : String) (n : Nat) : String := String.mk (s.data.take n)

/-- Python sep.join(parts). -/
def pyJoin (sep : String) : List String → String
  | [] => ""
  | [x] => x
  | x :: xs => x ++ sep ++ pyJoin sep xs

/-- Check whether needle occurs as a contiguous run inside hay. -/
def isSubChars (needle : List Char) : List Char → Bool
  | [] => needle.isEmpty
  | h :: t => needle.isPrefixOf (h :: t) || isSubChars needle t

/-- Python substring test (needle in hay). -/
def strContains (hay needle : String) : Bool := isSubChars needle.data hay.data

/-- Python s.lower(), per code point (ASCII-faithful). -/
def pyLower (s : String) : String := String.mk (s.data.map Char.toLower)

/-- Python s.endswith(suf). -/
def pyEndsWith (s suf : String) : Bool := suf.data.isSuffixOf s.data

/-- Python s.startswith(pre). -/
def pyStartsWith (s pre : String) : Bool := pre.data.isPrefixOf s.data

/-- Characters of l before the first occurrence of c. -/
def takeUntilChar (c : Char) : List Char → List Char
  | [] => []
  | h :: t => if h = c then [] else h :: takeUntilChar c t

/-- Characters of l after the last occurrence of c (all of l if c absent). -/
def afterLastChar (c : Char) (l : List Char) : List Char :=
  l.foldl (fun acc ch => if ch = c then [] else acc ++ [ch]) []

/-- Python os.path.basename(url.split("?")[0]) for POSIX paths/URLs. -/
def pyBasename (url : String) : String :=
  String.mk (afterLastChar '/' (takeUntilChar '?' url.data))

theorem pyslice_length_le (s : String) (n : Nat) : (pyslice s n).length ≤ n := by
  show (s.data.take n).length ≤ n
  simp [List.length_take]

/-- HTTP response as consumed by the requests.get callers in curl.py: the
Content-Type header and the payload body. -/
structure FetchResp where
  contentType : String
  body : String
deriving DecidableEq

/-- One member of a ZIP archive: its entry name together with the outcome of
z.read(name).decode with invalid bytes ignored — either the decoded text or
the message of a raised exception (e.g. a corrupt member). -/
structure ZipEntry where
  name : String
  read : Except String String
deriving DecidableEq

/-- Oracle for the effectful collaborators of curl.py's content-extraction
helpers: requests.get by URL, pypdf page-text extraction over a fetched
body, zipfile opening over a fetched body, and the OpenAI file-upload POST
(filename, content → file id).  Except.error models a raised exception. -/
structure World where
  fetch : String → Except String FetchResp
  pdfPages : String → Except String (List String)
  openZip : String → Except String (List ZipEntry)
  upload : String → String → Except String String

/-- curl.py scrape_pdf: download the URL, extract every page's text,
append a newline after each page, truncate the concatenation to 20000
characters; any exception is caught and rendered as an error string. -/
def scrape_pdf (w : World) (url : String) : String :=
  match w.fetch url with
  | .error e => "Error extracting PDF text: " ++ e
  | .ok resp =>
    match w.pdfPages resp.body with
    | .error e => "Error extracting PDF text: " ++ e
    | .ok pages => pyslice (String.join (pages.map (fun p => p ++ "\n"))) 20000

/-- World in which the PDF download raises with a 20000-character exception
message. -/
def pdfFailWorld : World where
  fetch := fun _ => .error (String.mk (List.replicate 20000 'a'))
  pdfPages := fun _ => .error "unused"
  openZip := fun _ => .error "unused"
  upload := fun _ _ => .error "unused"

/-- C4 counterexample: scrape_pdf catches the failure, but the error string
it returns ("Error extracting PDF text: " plus the exception message) is
not truncated, so with a 20000-character exception message the output has
20027 characters, exceeding the claimed 20000-character ceiling. -/
theorem c4_pdf_output_ceiling_counterexample :
    20000 < (scrape_pdf pdfFailWorld "http://h/doc.pdf").length := by
  have h : scrape_pdf pdfFailWorld "http://h/doc.pdf"
      = "Error extracting PDF text: " ++ String.mk (List.replicate 20000 'a') := rfl
  have hlen : (scrape_pdf pdfFailWorld "http://h/doc.pdf").length
      = "Error extracting PDF text: ".length + 20000 := by
    rw [h, String.length_append]
    have h2 : (String.mk (List.replicate 20000 'a')).length = 20000 := by
      rw [String.length_mk, List.length_replicate]
    omega
  have hpre : "Error extracting PDF text: ".length = 27 := rfl
  omega

/-- C4 (amended): scrape_pdf never raises (it is a total function into
String); on a successful fetch and extraction the output is truncated to at
most 20000 characters; on any failure it returns the error-prefixed
exception message, which is not truncated. -/
theorem c4_pdf_scraper_amended (w : World) (url : String) :
    (∀ resp pages, w.fetch url = .ok resp → w.pdfPages resp.body = .ok pages →
        (scrape_pdf w url).length ≤ 20000) ∧
    (∀ e, w.fetch url = .error e →
        scrape_pdf w url = "Error extracting PDF text: " ++ e) ∧
    (∀ resp e, w.fetch url = .ok resp → w.pdfPages resp.body = .error e →
        scrape_pdf w url = "Error extracting PDF text: " ++ e) := by
  refine ⟨?_, ?_, ?_⟩
  · intro resp pages h1 h2
    simp only [scrape_pdf, h1, h2]
    exact pyslice_length_le _ _
  · intro e h1
    simp [scrape_pdf, h1]
  · intro resp e h1 h2
    simp [scrape_pdf, h1, h2]

/-- World in which the PDF download and extraction succeed. -/
def pdfOkWorld : World where
  fetch := fun _ => .ok ⟨"application/pdf", "PDFBYTES"⟩
  pdfPages := fun _ => .ok ["Page one.", "Page two."]
  openZip := fun _ => .error "unused"
  upload := fun _ _ => .error "unused"

/-- World in which the PDF download raises with a short message. -/
def pdfErrWorld : World where
  fetch := fun _ => .error "boom"
  pdfPages := fun _ => .error "unused"
  openZip := fun _ => .error "unused"
  upload := fun _ _ => .error "unused"

/-- Witness for C4 (amended) at concrete worlds: a successful extraction is
within the ceiling, and a failing download yields the error string. -/
theorem c4_pdf_scraper_amended_witness :
    (scrape_pdf pdfOkWorld "http://h/doc.pdf").length ≤ 20000 ∧
    scrape_pdf pdfErrWorld "http://h/doc.pdf" = "Error extracting PDF text: boom" :=
  ⟨(c4_pdf_scraper_amended pdfOkWorld "http://h/doc.pdf").1
      ⟨"application/pdf", "PDFBYTES"⟩ ["Page one.", "Page two."] rfl rfl,
   (c4_pdf_scraper_amended pdfErrWorld "http://h/doc.pdf").2.1 "boom" rfl⟩

/-- curl.py get_page_source_local: try a headless-browser render of the
page (the render oracle); on any exception fall back to
requests.get(url).text (the plainFetch oracle).  The fallback call is not
inside any try block, so its failure propagates as an exception. -/
def get_page_source_local (render plainFetch : Except String String) : Except String String :=
  match render with
  | .ok html => .ok html
  | .error _ => plainFetch

/-- C6 counterexample: when both the browser render and the plain fetch
fail, get_page_source_local propagates the plain-fetch exception instead of
returning the empty string as claimed. -/
theorem c6_page_render_counterexample :
    get_page_source_local (.error "render boom") (.error "network down")
      = .error "network down" ∧
    (Except.error "network down" : Except String String) ≠ .ok "" := by
  refine ⟨rfl, ?_⟩
  intro h
  exact Except.noConfusion h

/-- C6 (amended): a successful render returns the rendered page; a failed
render falls back to the plain unrendered fetch, whose outcome — including
a raised exception — is returned as-is, with no empty-string fallback. -/
theorem c6_page_render_amended (render plainFetch : Except String String) :
    (∀ h, render = .ok h → get_page_source_local render plainFetch = .ok h) ∧
    (∀ e, render = .error e → get_page_source_local render plainFetch = plainFetch) := by
  constructor
  · intro h hr
    simp [get_page_source_local, hr]
  · intro e hr
    simp [get_page_source_local, hr]

/-- Witness for C6 (amended) at concrete outcomes. -/
theorem c6_page_render_amended_witness :
    get_page_source_local (.ok "<html></html>") (.error "x") = .ok "<html></html>" ∧
    get_page_source_local (.error "boom") (.ok "plain page") = .ok "plain page" :=
  ⟨(c6_page_render_amended (.ok "<html></html>") (.error "x")).1 "<html></html>" rfl,
   (c6_page_render_amended (.error "boom") (.ok "plain page")).2 "boom" rfl⟩

/-- Single-quote character, used by Python's repr of a list of strings. -/
def pySQuote : String := String.singleton (Char.ofNat 39)

/-- Python repr of a list of strings, as interpolated by
f"Files in archive: \x7bfile_list\x7d" in extract_zip. -/
def pyReprList (l : List String) : String :=
  "[" ++ pyJoin ", " (l.map (fun n => pySQuote ++ n ++ pySQuote)) ++ "]"

/-- Extensions treated as text inside a ZIP archive (curl.py extract_zip). -/
def text_extensions : List String :=
  [".txt", ".csv", ".json", ".xml", ".html", ".md", ".py", ".js"]

/-- Test from extract_zip's loop: the lowercased entry name ends in a
text-like extension and the name does not start with the underscore-prefixed
metadata marker. -/
def isTextEntry (name : String) : Bool :=
  (text_extensions.any (fun suf => pyEndsWith (pyLower name) suf)) && !(pyStartsWith name "__")

/-- Contribution of one archive member to extract_zip's contents list:
text-like entries yield their decoded text truncated to 8000 characters, a
member whose read raises is noted by name only, and any other entry
contributes nothing. -/
def entryNote (z : ZipEntry) : Option String :=
  if isTextEntry z.name then
    some (match z.read with
      | .ok content => "--- " ++ z.name ++ " ---\n" ++ pyslice content 8000
      | .error _ => "--- " ++ z.name ++ " --- (binary or unreadable)")
  else none

/-- Untruncated output of extract_zip: the repr of the full name list in
archive order, then the per-entry contents joined by blank lines. -/
def zipAll (entries : List ZipEntry) : String :=
  "Files in archive: " ++ pyReprList (entries.map ZipEntry.name) ++ "\n\n"
    ++ pyJoin "\n\n" (entries.filterMap entryNote)

/-- curl.py extract_zip: download the archive, open it in memory, build the
listing and contents described by zipAll and truncate to 25000 characters;
any exception is caught and rendered as an error string. -/
def extract_zip (w : World) (url : String) : String :=
  match w.fetch url with
  | .error e => "Error extracting ZIP: " ++ e
  | .ok resp =>
    match w.openZip resp.body with
    | .error e => "Error extracting ZIP: " ++ e
    | .ok entries => pyslice (zipAll entries) 25000

theorem infixAppendLeft {α : Type} (pre : List α) {l t : List α}
    (h : l <:+: t) : l <:+: pre ++ t := by
  obtain ⟨s, u, hsu⟩ := h
  exact ⟨pre ++ s, u, by rw [← hsu]; simp⟩

theorem infixAppendRight {α : Type} (post : List α) {l t : List α}
    (h : l <:+: t) : l <:+: t ++ post := by
  obtain ⟨s, u, hsu⟩ := h
  exact ⟨s, u ++ post, by rw [← hsu]; simp⟩

theorem mem_pyJoin_infix (sep x : String) :
    ∀ l : List String, x ∈ l → x.data <:+: (pyJoin sep l).data := by
  intro l
  induction l with
  | nil => intro h; cases h
  | cons y ys ih =>
    intro hmem
    cases ys with
    | nil =>
      have hx : x = y := by simpa using hmem
      subst hx
      exact ⟨[], [], by simp [pyJoin]⟩
    | cons z zs =>
      rcases List.mem_cons.mp hmem with h | h
      · subst h
        show x.data <:+: ((x ++ sep) ++ pyJoin sep (z :: zs)).data
        exact ⟨[], (sep ++ pyJoin sep (z :: zs)).data, by simp [String.data_append]⟩
      · have h2 := ih h
        show x.data <:+: ((y ++ sep) ++ pyJoin sep (z :: zs)).data
        rw [String.data_append]
        exact infixAppendLeft _ h2

theorem name_infix_zipAll (entries : List ZipEntry) (z : ZipEntry) (hz : z ∈ entries) :
    z.name.data <:+: (zipAll entries).data := by
  have h1 : z.name.data <:+: (pySQuote ++ z.name ++ pySQuote).data :=
    ⟨pySQuote.data, pySQuote.data, by simp [String.data_append]⟩
  have hmem : (pySQuote ++ z.name ++ pySQuote)
      ∈ (entries.map ZipEntry.name).map (fun n => pySQuote ++ n ++ pySQuote) := by
    exact List.mem_map_of_mem _ (List.mem_map_of_mem _ hz)
  have h2 := mem_pyJoin_infix ", " _ _ hmem
  have h3 : (pyJoin ", " ((entries.map ZipEntry.name).map (fun n => pySQuote ++ n ++ pySQuote))).data
      <:+: (pyReprList (entries.map ZipEntry.name)).data := by
    show _ <:+: (("[" ++ pyJoin ", " _) ++ "]").data
    rw [String.data_append, String.data_append]
    exact infixAppendRight _ (infixAppendLeft _ (List.infix_refl _))
  have h4 : (pyReprList (entries.map ZipEntry.name)).data <:+: (zipAll entries).data := by
    show _ <:+: ((("Files in archive: " ++ pyReprList _) ++ "\n\n") ++ pyJoin "\n\n" _).data
    rw [String.data_append, String.data_append, String.data_append]
    exact infixAppendRight _ (infixAppendRight _ (infixAppendLeft _ (List.infix_refl _)))
  exact ((h1.trans h2).trans h3).trans h4

/-- C5: with the archive fetched and opened successfully, extract_zip
returns the zipAll listing truncated to 25000 characters; the untruncated
listing mentions every entry name (in archive order, since the listing is
the repr of the name list); every text-like entry that decodes contributes
its text truncated to 8000 characters to the contents; an entry whose read
raises is noted by name only; and entries without a text-like extension (or
starting with the metadata marker) contribute nothing to the contents. -/
theorem c5_zip_extractor (w : World) (url : String) (resp : FetchResp)
    (entries : List ZipEntry)
    (hf : w.fetch url = .ok resp) (hz : w.openZip resp.body = .ok entries) :
    extract_zip w url = pyslice (zipAll entries) 25000 ∧
    (extract_zip w url).length ≤ 25000 ∧
    (∀ z ∈ entries, z.name.data <:+: (zipAll entries).data) ∧
    (∀ z ∈ entries, isTextEntry z.name = true → ∀ c, z.read = .ok c →
        entryNote z = some ("--- " ++ z.name ++ " ---\n" ++ pyslice c 8000) ∧
        (pyslice c 8000).length ≤ 8000 ∧
        ("--- " ++ z.name ++ " ---\n" ++ pyslice c 8000) ∈ entries.filterMap entryNote) ∧
    (∀ z ∈ entries, isTextEntry z.name = true → ∀ e, z.read = .error e →
        ("--- " ++ z.name ++ " --- (binary or unreadable)") ∈ entries.filterMap entryNote) ∧
    (∀ z ∈ entries, isTextEntry z.name = false → entryNote z = none) := by
  have hx : extract_zip w url = pyslice (zipAll entries) 25000 := by
    simp [extract_zip, hf, hz]
  refine ⟨hx, ?_, ?_, ?_, ?_, ?_⟩
  · rw [hx]; exact pyslice_length_le _ _
  · intro z hzin; exact name_infix_zipAll entries z hzin
  · intro z hzin htext c hread
    have hnote : entryNote z = some ("--- " ++ z.name ++ " ---\n" ++ pyslice c 8000) := by
      simp [entryNote, htext, hread]
    exact ⟨hnote, pyslice_length_le _ _, List.mem_filterMap.mpr ⟨z, hzin, hnote⟩⟩
  · intro z hzin htext e hread
    have hnote : entryNote z = some ("--- " ++ z.name ++ " --- (binary or unreadable)") := by
      simp [entryNote, htext, hread]
    exact List.mem_filterMap.mpr ⟨z, hzin, hnote⟩
  · intro z _ htext
    simp [entryNote, htext]

/-- Concrete archive for the witness: a.txt and b.csv decode, photo.png is
not text-like. -/
def zipDemoEntries : List ZipEntry :=
  [⟨"a.txt", .ok "hello from a"⟩, ⟨"b.csv", .ok "x,y\n1,2"⟩, ⟨"photo.png", .ok "PNGBYTES"⟩]

/-- World serving the demo archive. -/
def zipDemoWorld : World where
  fetch := fun _ => .ok ⟨"application/zip", "ZIPBYTES"⟩
  pdfPages := fun _ => .error "unused"
  openZip := fun _ => .ok zipDemoEntries
  upload := fun _ _ => .error "unused"

/-- Witness for C5 on the spec's example archive: all three names are
listed, a.txt and b.csv contribute decoded text, and photo.png contributes
nothing to the contents. -/
theorem c5_zip_extractor_witness :
    "photo.png".data <:+: (zipAll zipDemoEntries).data ∧
    ("--- a.txt ---\n" ++ pyslice "hello from a" 8000) ∈ zipDemoEntries.filterMap entryNote ∧
    ("--- b.csv ---\n" ++ pyslice "x,y\n1,2" 8000) ∈ zipDemoEntries.filterMap entryNote ∧
    entryNote ⟨"photo.png", .ok "PNGBYTES"⟩ = none := by
  obtain ⟨h1, h2, h3, h4, h5, h6⟩ :=
    c5_zip_extractor zipDemoWorld "http://h/a.zip" ⟨"application/zip", "ZIPBYTES"⟩
      zipDemoEntries rfl rfl
  refine ⟨h3 ⟨"photo.png", .ok "PNGBYTES"⟩ (by decide), ?_, ?_, ?_⟩
  · exact (h4 ⟨"a.txt", .ok "hello from a"⟩ (by decide) (by decide) "hello from a" rfl).2.2
  · exact (h4 ⟨"b.csv", .ok "x,y\n1,2"⟩ (by decide) (by decide) "x,y\n1,2" rfl).2.2
  · exact h6 ⟨"photo.png", .ok "PNGBYTES"⟩ (by decide) (by decide)

/-- Lookup in the process-lifetime UPLOADED_FILES_CACHE (url in dict /
dict[url]): first matching key wins. -/
def cacheGet (c : List (String × String)) (url : String) : Option String :=
  (c.find? (fun kv => kv.1 == url)).map Prod.snd

/-- Assignment dict[url] = v, modelled by prepending so a later lookup sees
the newest binding. -/
def cacheSet (c : List (String × String)) (url v : String) : List (String × String) :=
  (url, v) :: c

/-- curl.py download_excel_raw: fetch the spreadsheet, choose a filename
from the URL (falling back to data.xlsx), upload it to remote file storage
and return a handle-plus-guidance string; exceptions become error strings.
The second component records the URLs for which an upload POST was issued.
No cache is consulted or written. -/
def download_excel_raw (w : World) (url : String) : String × List String :=
  match w.fetch url with
  | .error e => ("Error downloading Excel: " ++ e, [])
  | .ok resp =>
    let b := pyBasename url
    let fn0 := if b.isEmpty then "data.xlsx" else b
    let fn := if pyEndsWith fn0 ".xlsx" || pyEndsWith fn0 ".xls" then fn0 else "data.xlsx"
    match w.upload fn resp.body with
    | .error e => ("Error downloading Excel: " ++ e, [url])
    | .ok fid =>
      ("Excel file uploaded. File ID: " ++ fid
        ++ ". Use Code Interpreter with pandas to read and process this file: pd.read_excel(file_path)",
       [url])

/-- curl.py parse_excel: alias for download_excel_raw. -/
def parse_excel (w : World) (url : String) : String × List String :=
  download_excel_raw w url

/-- Text detection of download_and_process_file: Content-Type mentions
text/csv/json, or the lowercased URL ends in .csv/.json/.txt. -/
def is_text_data (contentType urlLower : String) : Bool :=
  strContains contentType "text" || strContains contentType "csv"
    || strContains contentType "json" || pyEndsWith urlLower ".csv"
    || pyEndsWith urlLower ".json" || pyEndsWith urlLower ".txt"

/-- curl.py download_and_process_file: classification chain over the URL
(pdf → scrape_pdf, xlsx/xls → parse_excel, zip → extract_zip, then cache
lookup, then fetch: text is returned raw and a marker cached, anything else
is uploaded and the handle cached).  Returns the result string, the updated
cache and the URLs for which an upload POST was issued. -/
def download_and_process_file (w : World) (cache : List (String × String)) (url : String) :
    String × List (String × String) × List String :=
  let urlLower := pyLower url
  if pyEndsWith urlLower ".pdf" then (scrape_pdf w url, cache, [])
  else if pyEndsWith urlLower ".xlsx" || pyEndsWith urlLower ".xls" then
    let r := parse_excel w url
    (r.1, cache, r.2)
  else if pyEndsWith urlLower ".zip" then (extract_zip w url, cache, [])
  else
    match cacheGet cache url with
    | some v => (v, cache, [])
    | none =>
      match w.fetch url with
      | .error e => ("Error processing file: " ++ e, cache, [])
      | .ok resp =>
        if is_text_data (pyLower resp.contentType) urlLower then
          (resp.body, cacheSet cache url "Data already downloaded.", [])
        else
          let b := pyBasename url
          let fn := if b.isEmpty then "downloaded_file.dat" else b
          match w.upload fn resp.body with
          | .error e => ("Error processing file: " ++ e, cache, [url])
          | .ok fid =>
            ("File uploaded successfully. ID: " ++ fid
               ++ ". Use this ID with Code Interpreter tools.",
             cacheSet cache url ("File ID: " ++ fid), [url])

/-- World serving an opaque PNG and an opaque spreadsheet, with uploads
succeeding with handle file-123. -/
def binDemoWorld : World where
  fetch := fun u =>
    if u = "http://h/img.png" then .ok ⟨"image/png", "IMAGEBYTES"⟩
    else .ok ⟨"application/octet-stream", "XLSXBYTES"⟩
  pdfPages := fun _ => .error "unused"
  openZip := fun _ => .error "unused"
  upload := fun _ _ => .ok "file-123"

/-- C2 counterexample: the first request for an opaque PNG returns the long
"File uploaded successfully..." message while the second returns the cached
"File ID: ..." marker — not the identical string; and a spreadsheet URL
bypasses the cache entirely, issuing a fresh upload on each of two
consecutive requests. -/
theorem c2_cached_handle_counterexample :
    (download_and_process_file binDemoWorld
        (download_and_process_file binDemoWorld [] "http://h/img.png").2.1
        "http://h/img.png").1
      ≠ (download_and_process_file binDemoWorld [] "http://h/img.png").1 ∧
    (download_and_process_file binDemoWorld [] "http://h/d.xlsx").2.2 = ["http://h/d.xlsx"] ∧
    (download_and_process_file binDemoWorld
        (download_and_process_file binDemoWorld [] "http://h/d.xlsx").2.1
        "http://h/d.xlsx").2.2 = ["http://h/d.xlsx"] := by
  refine ⟨by decide, by decide, by decide⟩

/-- C2 (amended): for a URL with none of the special-cased extensions, a
cache miss with a non-text response uploads exactly once and caches
"File ID: <id>"; the second request for the same URL returns that cached
marker — a different string from the first request's
"File uploaded successfully..." message, embedding the same handle — and
performs no further upload, leaving the cache unchanged.  Spreadsheet URLs
bypass the cache: every request delegates to parse_excel with the cache
untouched, so each request re-uploads. -/
theorem c2_binary_upload_cache_amended (w : World) (cache : List (String × String))
    (url : String) (resp : FetchResp) (fid : String)
    (hpdf : pyEndsWith (pyLower url) ".pdf" = false)
    (hxlsx : pyEndsWith (pyLower url) ".xlsx" = false)
    (hxls : pyEndsWith (pyLower url) ".xls" = false)
    (hzip : pyEndsWith (pyLower url) ".zip" = false)
    (hmiss : cacheGet cache url = none)
    (hfetch : w.fetch url = .ok resp)
    (htext : is_text_data (pyLower resp.contentType) (pyLower url) = false)
    (hup : w.upload (if (pyBasename url).isEmpty then "downloaded_file.dat" else pyBasename url)
        resp.body = .ok fid) :
    (download_and_process_file w cache url).1
      = "File uploaded successfully. ID: " ++ fid ++ ". Use this ID with Code Interpreter tools." ∧
    (download_and_process_file w cache url).2.2 = [url] ∧
    (download_and_process_file w (download_and_process_file w cache url).2.1 url).1
      = "File ID: " ++ fid ∧
    (download_and_process_file w (download_and_process_file w cache url).2.1 url).2.2 = [] ∧
    (download_and_process_file w (download_and_process_file w cache url).2.1 url).2.1
      = (download_and_process_file w cache url).2.1 ∧
    (∀ xurl, pyEndsWith (pyLower xurl) ".pdf" = false →
      pyEndsWith (pyLower xurl) ".xlsx" = true →
      download_and_process_file w cache xurl
        = ((parse_excel w xurl).1, cache, (parse_excel w xurl).2)) := by
  have h1 : download_and_process_file w cache url
      = ("File uploaded successfully. ID: " ++ fid ++ ". Use this ID with Code Interpreter tools.",
         cacheSet cache url ("File ID: " ++ fid), [url]) := by
    simp [download_and_process_file, hpdf, hxlsx, hxls, hzip, hmiss, hfetch, htext, hup]
  have h2 : cacheGet (cacheSet cache url ("File ID: " ++ fid)) url = some ("File ID: " ++ fid) := by
    simp [cacheGet, cacheSet, List.find?]
  refine ⟨by rw [h1], by rw [h1], ?_, ?_, ?_, ?_⟩
  · rw [h1]
    simp [download_and_process_file, hpdf, hxlsx, hxls, hzip, h2]
  · rw [h1]
    simp [download_and_process_file, hpdf, hxlsx, hxls, hzip, h2]
  · rw [h1]
    simp [download_and_process_file, hpdf, hxlsx, hxls, hzip, h2]
  · intro xurl hxpdf hx
    simp [download_and_process_file, hxpdf, hx]

/-- Witness for C2 (amended) at the concrete PNG URL of binDemoWorld. -/
theorem c2_binary_upload_cache_amended_witness :
    (download_and_process_file binDemoWorld [] "http://h/img.png").1
      = "File uploaded successfully. ID: file-123. Use this ID with Code Interpreter tools." ∧
    (download_and_process_file binDemoWorld
        (download_and_process_file binDemoWorld [] "http://h/img.png").2.1
        "http://h/img.png").1 = "File ID: file-123" := by
  obtain ⟨ha, _, hb, _⟩ :=
    c2_binary_upload_cache_amended binDemoWorld [] "http://h/img.png"
      ⟨"image/png", "IMAGEBYTES"⟩ "file-123"
      (by decide) (by decide) (by decide) (by decide) (by decide) (by decide) (by decide)
      (by decide)
  exact ⟨ha, hb⟩

/-- Response of the speech-to-text POST in transcribe_audio_file: the HTTP
status, response.text, and the outcome of response.json().get("text", "")
(whose parse may raise). -/
structure TranscribeResp where
  status : Nat
  body : String
  jsonTextField : Except String String
deriving DecidableEq

/-- Oracle for transcribe_audio_file's effects on one URL: the audio
download and the transcription POST.  Except.error models a raised
exception. -/
structure AudioWorld where
  fetch : Except String String
  transcribe : Except String TranscribeResp

/-- Transient filename chosen by transcribe_audio_file from the URL. -/
def audioFilename (url : String) : String :=
  if pyEndsWith url ".opus" then "temp_audio_clip.ogg" else "temp_audio_clip.mp3"

/-- curl.py transcribe_audio_file: download the audio, write it to a
transient file, POST it to the transcription endpoint and return the
transcript.  The second component is the list of transient files still on
disk when the function returns: os.remove runs only on the success path,
after the 200-status check and the JSON parse. -/
def transcribe_audio_file (w : AudioWorld) (url : String) : String × List String :=
  match w.fetch with
  | .error e => ("Error during transcription: " ++ e, [])
  | .ok _body =>
    let fn := audioFilename url
    match w.transcribe with
    | .error e => ("Error during transcription: " ++ e, [fn])
    | .ok resp =>
      if resp.status ≠ 200 then ("Error transcribing: " ++ resp.body, [fn])
      else
        match resp.jsonTextField with
        | .error e => ("Error during transcription: " ++ e, [fn])
        | .ok t => (t, [])

/-- World in which the transcription endpoint answers with status 400. -/
def audioFailWorld : AudioWorld where
  fetch := .ok "AUDIOBYTES"
  transcribe := .ok ⟨400, "bad request", .ok ""⟩

/-- C7 counterexample: on a non-200 transcription response the function
returns with the transient audio file still on disk, so the file is not
deleted on every outcome. -/
theorem c7_temp_file_cleanup_counterexample :
    transcribe_audio_file audioFailWorld "http://h/a.mp3"
      = ("Error transcribing: bad request", ["temp_audio_clip.mp3"]) ∧
    ["temp_audio_clip.mp3"] ≠ ([] : List String) :=
  ⟨by decide, by decide⟩

/-- C7 (amended): the transient audio file is deleted before return only on
the full success path (download ok, status 200, JSON parse ok) and trivially
when the download fails before the file is written; on a non-200 status or
an internal exception raised after the file is written, the function
returns with the file still on disk. -/
theorem c7_audio_temp_file_amended (w : AudioWorld) (url : String) :
    (∀ body resp t, w.fetch = .ok body → w.transcribe = .ok resp → resp.status = 200 →
        resp.jsonTextField = .ok t → transcribe_audio_file w url = (t, [])) ∧
    (∀ e, w.fetch = .error e →
        transcribe_audio_file w url = ("Error during transcription: " ++ e, [])) ∧
    (∀ body resp, w.fetch = .ok body → w.transcribe = .ok resp → resp.status ≠ 200 →
        transcribe_audio_file w url = ("Error transcribing: " ++ resp.body, [audioFilename url])) ∧
    (∀ body e, w.fetch = .ok body → w.transcribe = .error e →
        transcribe_audio_file w url = ("Error during transcription: " ++ e, [audioFilename url])) := by
  refine ⟨?_, ?_, ?_, ?_⟩
  · intro body resp t h1 h2 h3 h4
    simp [transcribe_audio_file, h1, h2, h3, h4]
  · intro e h1
    simp [transcribe_audio_file, h1]
  · intro body resp h1 h2 h3
    simp [transcribe_audio_file, h1, h2, h3]
  · intro body e h1 h2
    simp [transcribe_audio_file, h1, h2]

/-- World in which the transcription succeeds. -/
def audioOkWorld : AudioWorld where
  fetch := .ok "AUDIOBYTES"
  transcribe := .ok ⟨200, "raw", .ok "hello world"⟩

/-- Witness for C7 (amended): on success the transcript is returned and no
transient file remains; on a non-200 status the file remains. -/
theorem c7_audio_temp_file_amended_witness :
    transcribe_audio_file audioOkWorld "http://h/a.mp3" = ("hello world", []) ∧
    transcribe_audio_file audioFailWorld "http://h/b.opus"
      = ("Error transcribing: bad request", ["temp_audio_clip.ogg"]) :=
  ⟨(c7_audio_temp_file_amended audioOkWorld "http://h/a.mp3").1 "AUDIOBYTES"
      ⟨200, "raw", .ok "hello world"⟩ "hello world" rfl rfl rfl rfl,
   by
    have h := (c7_audio_temp_file_amended audioFailWorld "http://h/b.opus").2.2.1 "AUDIOBYTES"
      ⟨400, "bad request", .ok ""⟩ rfl rfl (by decide)
    simpa using h⟩

/-- Value of a decoded JSON object entry in an api_request payload: a
string, Python None (what download_file_and_base64_encode returns on
failure), or a number. -/
inductive PyVal
  | str (s : String)
  | pyNone
  | num (n : Int)
deriving DecidableEq

/-- One content part of a thread message, as inspected by
get_latest_file_id_from_thread: its type tag and, for image_file parts, the
nested file id. -/
structure ContentPart where
  ctype : String
  fileId : String
deriving DecidableEq

/-- One message of the run's thread. -/
structure ThreadMessage where
  role : String
  content : List ContentPart
deriving DecidableEq

/-- Pure core of get_latest_file_id_from_thread's scan: the first
image_file file id found while walking messages in response order,
restricted to assistant messages. -/
def firstImageFileId (msgs : List ThreadMessage) : Option String :=
  msgs.findSome? (fun m =>
    if m.role = "assistant" then
      m.content.findSome? (fun c => if c.ctype = "image_file" then some c.fileId else none)
    else none)

/-- curl.py get_latest_file_id_from_thread: fetch the thread's messages
(the oracle argument) and scan them; any exception, or no match, yields
None. -/
def get_latest_file_id_from_thread (fetchMsgs : Except String (List ThreadMessage)) :
    Option String :=
  match fetchMsgs with
  | .error _ => none
  | .ok msgs => firstImageFileId msgs

/-- curl.py download_file_and_base64_encode: fetch the stored file's bytes
and base64-encode them (the fetchB64 oracle returns the encoded text of a
successful download, none for the exception path, which makes the Python
function return None); on success the result is the PNG data-URI. -/
def download_file_and_base64_encode (fetchB64 : String → Option String) (fid : String) :
    Option String :=
  match fetchB64 fid with
  | some b64 => some ("data:image/png;base64," ++ b64)
  | none => none

/-- Per-value body of the sentinel-substitution loop in process_run_loop's
api_request POST branch: a value equal to the literal __LATEST_FILE__ is
replaced by the encoded latest thread image when one is found (a falsy —
missing or empty — file id leaves the value untouched; a failed download
stores Python None). -/
def substValue (fetchMsgs : Except String (List ThreadMessage))
    (fetchB64 : String → Option String) (v : PyVal) : PyVal :=
  if v = PyVal.str "__LATEST_FILE__" then
    match get_latest_file_id_from_thread fetchMsgs with
    | none => v
    | some fid =>
      if fid = "" then v
      else
        match download_file_and_base64_encode fetchB64 fid with
        | some s => PyVal.str s
        | none => PyVal.pyNone
  else v

/-- The sentinel-substitution loop over the whole decoded payload (Python
mutates each matching key's value in place, i.e. maps over the values). -/
def substituteSentinel (fetchMsgs : Except String (List ThreadMessage))
    (fetchB64 : String → Option String) (payload : List (String × PyVal)) :
    List (String × PyVal) :=
  payload.map (fun kv => (kv.1, substValue fetchMsgs fetchB64 kv.2))

/-- Decoded argument bag of one tool call (the spec's §3 Tool Call Request
carries a format-specific key/value argument bag; missing optional keys are
none, mirroring args.get). -/
structure ToolArgs where
  url : String
  format : Option String
  method : String
  dataJson : List (String × PyVal)
  jsonpath : String
  question : Option String
  dataCsv : String
  chartType : Option String
  xCol : Option String
  yCol : Option String
  title : Option String
deriving DecidableEq

/-- One pending tool-call request of a run. -/
structure ToolCall where
  id : String
  name : String
  args : ToolArgs
deriving DecidableEq

/-- Oracle for the tool handlers invoked by process_run_loop's dispatch
chain (each is the separately embedded extractor applied to its URL
argument, abstracted here at the call boundary), plus the thread-message
fetch and stored-file download used by the api_request POST branch.
Except.error models the handler raising. -/
structure DispatchWorld where
  scrapeHtml : String → Except String String
  scrapeMd : String → Except String String
  webDownloader : String → Except String String
  pdfScraper : String → Except String String
  audioTranscriber : String → Except String String
  apiGet : String → Except String String
  apiPost : String → List (String × PyVal) → Except String String
  excelParser : String → Except String String
  visionAnalyze : String → String → Except String String
  tableExtractor : String → Except String String
  zipExtractor : String → Except String String
  jsonQuery : String → String → Except String String
  msgs : Except String (List ThreadMessage)
  fetchB64 : String → Option String

/-- Python x or default for an optional string argument (None and the empty
string are falsy). -/
def pyOr (v : Option String) (d : String) : String :=
  match v with
  | some s => if s.isEmpty then d else s
  | none => d

/-- curl.py generate_chart_base64: a pure delegation string, no rendering. -/
def generate_chart_base64 (dataCsv chartType : String) (xCol yCol : Option String)
    (title : String) : String :=
  "CHART_REQUEST: Please use Code Interpreter to generate a " ++ chartType ++ " chart.\n"
    ++ "Title: " ++ title ++ "\n"
    ++ "X Column: " ++ pyOr xCol "auto-detect first column" ++ "\n"
    ++ "Y Column: " ++ pyOr yCol "auto-detect first numeric column" ++ "\n"
    ++ "DATA (CSV format):\n" ++ dataCsv ++ "\n\n"
    ++ "Generate the chart using matplotlib in Code Interpreter and return the base64 PNG."

/-- The api_request POST branch: substitute sentinels in the decoded
payload, then POST it.  The first component is the payload actually
submitted in the HTTP request; the second is json.dumps(post_json(...)) or
the raised exception. -/
def api_request_post (w : DispatchWorld) (url : String) (payload : List (String × PyVal)) :
    List (String × PyVal) × Except String String :=
  let p := substituteSentinel w.msgs w.fetchB64 payload
  (p, w.apiPost url p)

/-- The if/elif dispatch chain inside process_run_loop's try block: some
for the twelve handled tool names (with the handler's outcome), none when
the name matches no branch and the pre-initialized result is kept. -/
def runHandler (w : DispatchWorld) (tc : ToolCall) : Option (Except String String) :=
  let a := tc.args
  if tc.name = "web_scraper" then
    some (if a.format.getD "html" = "html" then w.scrapeHtml a.url else w.scrapeMd a.url)
  else if tc.name = "web_downloader" then some (w.webDownloader a.url)
  else if tc.name = "pdf_scraper" then some (w.pdfScraper a.url)
  else if tc.name = "audio_transcriber" then some (w.audioTranscriber a.url)
  else if tc.name = "api_request" then
    some (if a.method = "GET" then w.apiGet a.url else (api_request_post w a.url a.dataJson).2)
  else if tc.name = "excel_parser" then some (w.excelParser a.url)
  else if tc.name = "image_ocr" then
    some (w.visionAnalyze a.url
      "Extract ALL text visible in this image. Maintain formatting where possible.")
  else if tc.name = "table_extractor" then some (w.tableExtractor a.url)
  else if tc.name = "zip_extractor" then some (w.zipExtractor a.url)
  else if tc.name = "json_query" then some (w.jsonQuery a.url a.jsonpath)
  else if tc.name = "image_analyzer" then
    some (w.visionAnalyze a.url (a.question.getD "Describe this image in detail."))
  else if tc.name = "chart_generator" then
    some (.ok (generate_chart_base64 a.dataCsv (a.chartType.getD "bar") a.xCol a.yCol
      (a.title.getD "Chart")))
  else none

/-- Output string recorded for one tool call: the handler's value, the
string "Error: <e>" set by the except branch when the handler raises, or
the pre-initialized "Error" when no branch matched the name. -/
def execToolCall (w : DispatchWorld) (tc : ToolCall) : String :=
  match runHandler w tc with
  | none => "Error"
  | some (.ok r) => r
  | some (.error e) => "Error: " ++ e

/-- One {tool_call_id, output} pair appended to tool_outputs. -/
structure ToolOutput where
  tool_call_id : String
  output : String
deriving DecidableEq

/-- The tool_outputs list built by the for loop over the pending calls. -/
def dispatchAll (w : DispatchWorld) (calls : List ToolCall) : List ToolOutput :=
  calls.map (fun tc => ⟨tc.id, execToolCall w tc⟩)

/-- Run statuses visible to process_run_loop. -/
inductive RunStatus
  | queued
  | in_progress
  | requires_action
  | completed
  | failed
  | cancelled
  | expired
deriving DecidableEq

/-- A polled run record: status, pending tool calls (when
requires_action), and last_error. -/
structure Run where
  status : RunStatus
  toolCalls : List ToolCall
  lastError : Option String
deriving DecidableEq

/-- One submit_tool_outputs POST with its batch payload. -/
structure SubmitEvent where
  tool_outputs : List ToolOutput
deriving DecidableEq

/-- curl.py process_run_loop: poll until a terminal status, dispatching and
submitting one batch per requires_action poll.  The polls list is the
oracle for the successive run records returned by the status GET (sleeps
abstracted away); none means the modelled polls ran out while the loop
would still be polling.  The second component records every
submit_tool_outputs call made, in order. -/
def process_run_loop (w : DispatchWorld) : List Run → Option Run × List SubmitEvent
  | [] => (none, [])
  | r :: rest =>
    match r.status with
    | .completed => (some r, [])
    | .requires_action =>
      let res := process_run_loop w rest
      (res.1, ⟨dispatchAll w r.toolCalls⟩ :: res.2)
    | .failed => (some r, [])
    | .cancelled => (some r, [])
    | .expired => (some r, [])
    | _ => process_run_loop w rest

/-- C1: a poll observing requires_action with n pending calls submits one
batch containing exactly n outputs, one per request in request order (the
i-th output carries the i-th call's id); a call whose handler raises
contributes "Error: <e>" for that call only, while a call whose handler
returns r contributes r, independently of the other calls. -/
theorem c1_run_driver_batch (w : DispatchWorld) (calls : List ToolCall) :
    ∃ outs : List ToolOutput,
      (process_run_loop w
          [⟨.requires_action, calls, none⟩, ⟨.completed, [], none⟩]).2 = [⟨outs⟩] ∧
      outs.length = calls.length ∧
      (∀ (i : Nat) (tc : ToolCall), calls[i]? = some tc →
        ∃ o : ToolOutput, outs[i]? = some o ∧ o.tool_call_id = tc.id ∧
          (∀ e, runHandler w tc = some (.error e) → o.output = "Error: " ++ e) ∧
          (∀ r, runHandler w tc = some (.ok r) → o.output = r)) := by
  refine ⟨dispatchAll w calls, ?_, ?_, ?_⟩
  · simp [process_run_loop]
  · simp [dispatchAll]
  · intro i tc hget
    refine ⟨⟨tc.id, execToolCall w tc⟩, ?_, rfl, ?_, ?_⟩
    · simp [dispatchAll, List.getElem?_map, hget]
    · intro e he
      simp [execToolCall, he]
    · intro r hr
      simp [execToolCall, hr]

/-- Argument bag carrying only a URL. -/
def dwArgs (u : String) : ToolArgs :=
  ⟨u, none, "", [], "", none, "", none, none, none, none⟩

/-- Dispatch world for the witnesses: every handler succeeds except
pdf_scraper, which raises "boom". -/
def demoDispatchWorld : DispatchWorld where
  scrapeHtml := fun _ => .ok "<html>page</html>"
  scrapeMd := fun _ => .ok "page"
  webDownloader := fun _ => .ok "data"
  pdfScraper := fun _ => .error "boom"
  audioTranscriber := fun _ => .ok "transcript"
  apiGet := fun _ => .ok "{}"
  apiPost := fun _ _ => .ok "{}"
  excelParser := fun _ => .ok "Excel file uploaded."
  visionAnalyze := fun _ _ => .ok "a chart"
  tableExtractor := fun _ => .ok "<table></table>"
  zipExtractor := fun _ => .ok "Files in archive: []"
  jsonQuery := fun _ _ => .ok "[]"
  msgs := .ok []
  fetchB64 := fun _ => none

/-- First demo call: a web_scraper request that succeeds. -/
def c1DemoCallA : ToolCall := ⟨"call_1", "web_scraper", dwArgs "http://h/page"⟩

/-- Second demo call: a pdf_scraper request whose handler raises. -/
def c1DemoCallB : ToolCall := ⟨"call_2", "pdf_scraper", dwArgs "http://h/doc.pdf"⟩

/-- Witness for C1: two pending calls, one of which raises, still yield one
batch of exactly two outputs, the second being the error string. -/
theorem c1_run_driver_batch_witness :
    ∃ outs : List ToolOutput,
      (process_run_loop demoDispatchWorld
          [⟨.requires_action, [c1DemoCallA, c1DemoCallB], none⟩,
           ⟨.completed, [], none⟩]).2 = [⟨outs⟩] ∧
      outs.length = 2 ∧
      ∃ o : ToolOutput, outs[1]? = some o ∧ o.tool_call_id = "call_2" ∧
        o.output = "Error: boom" := by
  obtain ⟨outs, hev, hlen, hidx⟩ :=
    c1_run_driver_batch demoDispatchWorld [c1DemoCallA, c1DemoCallB]
  obtain ⟨o, ho, hid, herr, _⟩ := hidx 1 c1DemoCallB (by decide)
  exact ⟨outs, hev, hlen, o, ho, hid.trans rfl, herr "boom" (by decide)⟩

/-- The twelve tool names handled by the dispatch chain. -/
def handledToolNames : List String :=
  ["web_scraper", "web_downloader", "pdf_scraper", "audio_transcriber", "api_request",
   "excel_parser", "image_ocr", "table_extractor", "zip_extractor", "json_query",
   "image_analyzer", "chart_generator"]

/-- C10: a tool call whose name is none of the twelve handled names does
not raise and is not skipped — no branch matches, the pre-initialized
result "Error" is kept, and the pair of its id with "Error" occupies that
call's position in the batch like any other result. -/
theorem c10_unknown_tool_error_output (w : DispatchWorld) (calls : List ToolCall)
    (i : Nat) (tc : ToolCall) (hget : calls[i]? = some tc)
    (hname : tc.name ∉ handledToolNames) :
    runHandler w tc = none ∧
    (dispatchAll w calls)[i]? = some ⟨tc.id, "Error"⟩ := by
  simp only [handledToolNames, List.mem_cons, List.not_mem_nil, or_false, not_or] at hname
  obtain ⟨h1, h2, h3, h4, h5, h6, h7, h8, h9, h10, h11, h12⟩ := hname
  have hr : runHandler w tc = none := by
    simp [runHandler, h1, h2, h3, h4, h5, h6, h7, h8, h9, h10, h11, h12]
  refine ⟨hr, ?_⟩
  simp [dispatchAll, List.getElem?_map, hget, execToolCall, hr]

/-- Witness for C10 at a concrete unknown name. -/
theorem c10_unknown_tool_error_output_witness :
    (dispatchAll demoDispatchWorld [⟨"call_9", "bogus_tool", dwArgs ""⟩])[0]?
      = some ⟨"call_9", "Error"⟩ :=
  (c10_unknown_tool_error_output demoDispatchWorld [⟨"call_9", "bogus_tool", dwArgs ""⟩]
      0 ⟨"call_9", "bogus_tool", dwArgs ""⟩ (by decide) (by decide)).2

theorem lookup_map_value (l : List (String × PyVal)) (k : String) (f : PyVal → PyVal) :
    (l.map (fun kv => (kv.1, f kv.2))).lookup k = (l.lookup k).map f := by
  induction l with
  | nil => rfl
  | cons kv t ih =>
    by_cases hk : k == kv.1
    · simp [List.lookup, hk]
    · simp only [List.map_cons, List.lookup, hk]
      exact ih

/-- C3: for a POST api_request whose decoded payload maps key k to the
literal sentinel __LATEST_FILE__, if the thread fetch succeeds, the scan
finds a (non-empty) image file id, and the image bytes download
successfully, then the payload actually submitted maps k to the base64 PNG
data-URI — a string starting with data:image/png;base64, — and not to the
literal sentinel. -/
theorem c3_sentinel_substitution (w : DispatchWorld) (url k : String)
    (payload : List (String × PyVal)) (msgs : List ThreadMessage) (fid b64 : String)
    (hmsgs : w.msgs = .ok msgs)
    (hfid : firstImageFileId msgs = some fid)
    (hne : fid ≠ "")
    (hfetch : w.fetchB64 fid = some b64)
    (hk : payload.lookup k = some (PyVal.str "__LATEST_FILE__")) :
    (api_request_post w url payload).1.lookup k
      = some (PyVal.str ("data:image/png;base64," ++ b64)) ∧
    "data:image/png;base64," ++ b64 ≠ "__LATEST_FILE__" := by
  constructor
  · show (substituteSentinel w.msgs w.fetchB64 payload).lookup k = _
    rw [substituteSentinel, lookup_map_value, hk]
    simp [substValue, get_latest_file_id_from_thread, hmsgs, hfid, hne,
      download_file_and_base64_encode, hfetch]
  · intro h
    have hlen := congrArg String.length h
    rw [String.length_append] at hlen
    have h1 : "data:image/png;base64,".length = 22 := rfl
    have h2 : "__LATEST_FILE__".length = 15 := rfl
    omega

/-- Thread with one assistant message carrying an image part. -/
def c3DemoMsgs : List ThreadMessage :=
  [⟨"assistant", [⟨"image_file", "file-img-1"⟩]⟩]

/-- Dispatch world for the C3 witness: the thread holds one generated image
and its bytes download successfully (encoded as QUJD). -/
def c3DemoWorld : DispatchWorld :=
  { demoDispatchWorld with
    msgs := .ok c3DemoMsgs
    fetchB64 := fun fid => if fid = "file-img-1" then some "QUJD" else none }

/-- Witness for C3: a chart key holding the sentinel is replaced by the
data-URI in the submitted payload. -/
theorem c3_sentinel_substitution_witness :
    (api_request_post c3DemoWorld "http://h/submit"
        [("chart", PyVal.str "__LATEST_FILE__")]).1.lookup "chart"
      = some (PyVal.str "data:image/png;base64,QUJD") :=
  (c3_sentinel_substitution c3DemoWorld "http://h/submit" "chart"
      [("chart", PyVal.str "__LATEST_FILE__")] c3DemoMsgs "file-img-1" "QUJD"
      rfl (by decide) (by decide) (by decide) (by decide)).1

/-- String form of a run status, as carried in run's status field. -/
def RunStatus.toStr : RunStatus → String
  | .queued => "queued"
  | .in_progress => "in_progress"
  | .requires_action => "requires_action"
  | .completed => "completed"
  | .failed => "failed"
  | .cancelled => "cancelled"
  | .expired => "expired"

/-- Oracle for the remote calls made by solve_quiz_question:
create_assistant (returns the assistant id), the threads/runs POST
(returns thread id and run id), process_run_loop's overall outcome for
those ids (it re-raises remote HTTP errors), and
_extract_assistant_response (answer text and image attachments).
Except.error models a raised exception. -/
structure SolveWorld where
  createAssistant : Except String String
  createRun : Except String (String × String)
  runLoop : String → String → Except String Run
  extractResp : String → Except String (String × List String)

/-- The result dict built by solve_quiz_question.  The error field is
doubly optional: none means the "error" key is absent, some v means the key
is present with value v (v = none models Python None from last_error).
The messages key added on success is not modelled. -/
structure SolveResult where
  status : String
  answer : Option String
  thread_id : Option String
  run_id : Option String
  attachments : List String
  error : Option (Option String)
deriving DecidableEq

/-- curl.py solve_quiz_question: create the assistant, start a run, drive
it with process_run_loop and extract the final answer; every exception is
caught by the outermost try and captured into status/error, so the
function always returns a result record. -/
def solve_quiz_question (w : SolveWorld) : SolveResult :=
  let r0 : SolveResult := ⟨"error", none, none, none, [], none⟩
  match w.createAssistant with
  | .error e => { r0 with error := some (some e) }
  | .ok _assistant_id =>
    match w.createRun with
    | .error e => { r0 with error := some (some e) }
    | .ok (tid, rid) =>
      let r1 := { r0 with thread_id := some tid, run_id := some rid }
      match w.runLoop tid rid with
      | .error e => { r1 with status := "error", error := some (some e) }
      | .ok run =>
        if run.status.toStr = "completed" then
          match w.extractResp tid with
          | .error e => { r1 with status := "error", error := some (some e) }
          | .ok (ans, atts) =>
            { r1 with status := "completed", answer := some ans, attachments := atts }
        else
          { r1 with status := run.status.toStr, error := some run.lastError }

/-- C8: solve_quiz_question never raises (it is a total function into the
result record, which always carries status, answer, thread/run identifiers
and attachments); whenever the final status is not completed no answer is
extracted and the error key is present; and each failure mode — assistant
creation, run creation, the run loop raising, a non-completed terminal run,
or extraction raising — lands in the documented status/error fields, with
thread/run ids retained once the run was created. -/
theorem c8_solve_quiz_question_contract (w : SolveWorld) :
    ((solve_quiz_question w).status ≠ "completed" →
        (solve_quiz_question w).answer = none ∧
        (solve_quiz_question w).error.isSome = true) ∧
    (∀ e, w.createAssistant = .error e →
        solve_quiz_question w = ⟨"error", none, none, none, [], some (some e)⟩) ∧
    (∀ a e, w.createAssistant = .ok a → w.createRun = .error e →
        solve_quiz_question w = ⟨"error", none, none, none, [], some (some e)⟩) ∧
    (∀ a tid rid e, w.createAssistant = .ok a → w.createRun = .ok (tid, rid) →
        w.runLoop tid rid = .error e →
        solve_quiz_question w = ⟨"error", none, some tid, some rid, [], some (some e)⟩) ∧
    (∀ a tid rid run, w.createAssistant = .ok a → w.createRun = .ok (tid, rid) →
        w.runLoop tid rid = .ok run → run.status.toStr ≠ "completed" →
        solve_quiz_question w
          = ⟨run.status.toStr, none, some tid, some rid, [], some run.lastError⟩) ∧
    (∀ a tid rid run ans atts, w.createAssistant = .ok a → w.createRun = .ok (tid, rid) →
        w.runLoop tid rid = .ok run → run.status.toStr = "completed" →
        w.extractResp tid = .ok (ans, atts) →
        solve_quiz_question w = ⟨"completed", some ans, some tid, some rid, atts, none⟩) ∧
    (∀ a tid rid run e, w.createAssistant = .ok a → w.createRun = .ok (tid, rid) →
        w.runLoop tid rid = .ok run → run.status.toStr = "completed" →
        w.extractResp tid = .error e →
        solve_quiz_question w = ⟨"error", none, some tid, some rid, [], some (some e)⟩) := by
  refine ⟨?_, ?_, ?_, ?_, ?_, ?_, ?_⟩
  · rcases hca : w.createAssistant with eca | a
    · intro _
      simp [solve_quiz_question, hca]
    · rcases hcr : w.createRun with ecr | ⟨tid, rid⟩
      · intro _
        simp [solve_quiz_question, hca, hcr]
      · rcases hrl : w.runLoop tid rid with erl | run
        · intro _
          simp [solve_quiz_question, hca, hcr, hrl]
        · by_cases hst : run.status.toStr = "completed"
          · rcases hex : w.extractResp tid with eex | ⟨ans, atts⟩
            · intro _
              simp [solve_quiz_question, hca, hcr, hrl, hst, hex]
            · intro hne
              exact absurd (by simp [solve_quiz_question, hca, hcr, hrl, hst, hex]) hne
          · intro _
            simp [solve_quiz_question, hca, hcr, hrl, hst]
  · intro e h
    simp [solve_quiz_question, h]
  · intro a e h1 h2
    simp [solve_quiz_question, h1, h2]
  · intro a tid rid e h1 h2 h3
    simp [solve_quiz_question, h1, h2, h3]
  · intro a tid rid run h1 h2 h3 h4
    simp [solve_quiz_question, h1, h2, h3, h4]
  · intro a tid rid run ans atts h1 h2 h3 h4 h5
    simp [solve_quiz_question, h1, h2, h3, h4, h5]
  · intro a tid rid run e h1 h2 h3 h4 h5
    simp [solve_quiz_question, h1, h2, h3, h4, h5]

/-- World whose run ends failed with a last_error. -/
def solveFailWorld : SolveWorld where
  createAssistant := .ok "asst_1"
  createRun := .ok ("thread_1", "run_1")
  runLoop := fun _ _ => .ok ⟨.failed, [], some "rate limited"⟩
  extractResp := fun _ => .error "unused"

/-- World whose run completes and whose answer extraction succeeds. -/
def solveOkWorld : SolveWorld where
  createAssistant := .ok "asst_1"
  createRun := .ok ("thread_1", "run_1")
  runLoop := fun _ _ => .ok ⟨.completed, [], none⟩
  extractResp := fun _ => .ok ("42", ["file-9"])

/-- Witness for C8: a failed run surfaces its last_error with ids and no
answer; a completed run yields the extracted answer and attachments. -/
theorem c8_solve_quiz_question_contract_witness :
    solve_quiz_question solveFailWorld
      = ⟨"failed", none, some "thread_1", some "run_1", [], some (some "rate limited")⟩ ∧
    solve_quiz_question solveOkWorld
      = ⟨"completed", some "42", some "thread_1", some "run_1", ["file-9"], none⟩ :=
  ⟨(c8_solve_quiz_question_contract solveFailWorld).2.2.2.2.1 "asst_1" "thread_1" "run_1"
      ⟨.failed, [], some "rate limited"⟩ rfl rfl rfl (by decide),
   (c8_solve_quiz_question_contract solveOkWorld).2.2.2.2.2.1 "asst_1" "thread_1" "run_1"
      ⟨.completed, [], none⟩ "42" ["file-9"] rfl rfl rfl (by decide) rfl⟩

/-- JSON value in a response body of app.py's endpoint. -/
inductive JVal
  | jstr (s : String)
  | jnull
  | jlist (xs : List String)
deriving DecidableEq

/-- The three request fields app.py's quiz_solver validates. -/
structure QuizPayload where
  email : Option String
  secret : Option String
  url : Option String
deriving DecidableEq

/-- Request body as seen after request.get_json(force=True): invalid JSON
(raising BadRequest), a parsed non-dict (including null), or a dict. -/
inductive ReqBody
  | badJson
  | notDict
  | dict (p : QuizPayload)
deriving DecidableEq

/-- Python truthiness of payload.get(field): present and non-empty. -/
def present (v : Option String) : Bool :=
  match v with
  | some s => !s.isEmpty
  | none => false

/-- The missing list comprehension of quiz_solver, in field order. -/
def missingFields (p : QuizPayload) : List String :=
  (if present p.email then [] else ["email"])
    ++ (if present p.secret then [] else ["secret"])
    ++ (if present p.url then [] else ["url"])

/-- jsonify of an optional string: null for Python None. -/
def optJ (v : Option String) : JVal :=
  match v with
  | some s => .jstr s
  | none => .jnull

/-- app.py quiz_solver endpoint: 400 on invalid JSON or missing fields,
403 on secret mismatch, 500 with ids when the solver result's status is
not completed, else 200 with the success body.  The solver argument is the
record returned by solve_quiz_question for the built prompt. -/
def quiz_solver (cfgSecret : String) (req : ReqBody) (solver : SolveResult) :
    Nat × List (String × JVal) :=
  match req with
  | .badJson => (400, [("error", .jstr "Invalid JSON payload.")])
  | .notDict => (400, [("error", .jstr "Invalid JSON payload.")])
  | .dict p =>
    let missing := missingFields p
    if missing.isEmpty then
      if p.secret ≠ some cfgSecret then
        (403, [("error", .jstr "Forbidden: secret mismatch.")])
      else
        if solver.status ≠ "completed" then
          (500, [("status", .jstr solver.status),
                 ("message", match solver.error with
                    | none => .jstr "Quiz solver failed."
                    | some v => optJ v),
                 ("thread_id", optJ solver.thread_id),
                 ("run_id", optJ solver.run_id)])
        else
          (200, [("status", .jstr "ok"),
                 ("thread_id", optJ solver.thread_id),
                 ("run_id", optJ solver.run_id),
                 ("answer", optJ solver.answer),
                 ("attachments", .jlist solver.attachments),
                 ("email", optJ p.email)])
    else
      (400, [("error", .jstr ("Missing required field(s): " ++ pyJoin ", " missing ++ "."))])

theorem missingFields_eq_nil (p : QuizPayload) :
    missingFields p = []
      ↔ (present p.email = true ∧ present p.secret = true ∧ present p.url = true) := by
  unfold missingFields
  by_cases h1 : present p.email <;> by_cases h2 : present p.secret
    <;> by_cases h3 : present p.url <;> simp [h1, h2, h3]

/-- C9: a payload with any of email/secret/url missing (falsy) gets 400;
all fields present but a secret differing from the configured one gets
403; an authenticated request whose solver status is not completed gets
500 with the solver's thread_id and run_id echoed; a completed solve gets
200 with exactly the status, thread_id, run_id, answer, attachments and
email fields. -/
theorem c9_quiz_endpoint (cfgSecret : String) (p : QuizPayload) (solver : SolveResult) :
    ((present p.email = false ∨ present p.secret = false ∨ present p.url = false) →
        (quiz_solver cfgSecret (.dict p) solver).1 = 400) ∧
    (missingFields p = [] → p.secret ≠ some cfgSecret →
        (quiz_solver cfgSecret (.dict p) solver).1 = 403) ∧
    (missingFields p = [] → p.secret = some cfgSecret → solver.status ≠ "completed" →
        (quiz_solver cfgSecret (.dict p) solver).1 = 500 ∧
        (quiz_solver cfgSecret (.dict p) solver).2.lookup "thread_id"
          = some (optJ solver.thread_id) ∧
        (quiz_solver cfgSecret (.dict p) solver).2.lookup "run_id"
          = some (optJ solver.run_id)) ∧
    (missingFields p = [] → p.secret = some cfgSecret → solver.status = "completed" →
        (quiz_solver cfgSecret (.dict p) solver).1 = 200 ∧
        (quiz_solver cfgSecret (.dict p) solver).2.map Prod.fst
          = ["status", "thread_id", "run_id", "answer", "attachments", "email"]) := by
  refine ⟨?_, ?_, ?_, ?_⟩
  · intro hdisj
    have hne : ¬ (missingFields p).isEmpty = true := by
      intro hemp
      have := (missingFields_eq_nil p).mp (List.isEmpty_iff.mp hemp)
      rcases hdisj with h | h | h <;> simp [h] at this
    simp [quiz_solver, hne]
  · intro hnil hsec
    simp [quiz_solver, hnil, hsec]
  · intro hnil hsec hst
    simp [quiz_solver, hnil, hsec, hst, List.lookup]
  · intro hnil hsec hst
    simp [quiz_solver, hnil, hsec, hst]

/-- Witness for C9: each branch at a concrete payload and solver record. -/
theorem c9_quiz_endpoint_witness :
    (quiz_solver "s3cret" (.dict ⟨some "a@b.c", none, some "http://q"⟩)
        (solve_quiz_question solveFailWorld)).1 = 400 ∧
    (quiz_solver "s3cret" (.dict ⟨some "a@b.c", some "wrong", some "http://q"⟩)
        (solve_quiz_question solveFailWorld)).1 = 403 ∧
    (quiz_solver "s3cret" (.dict ⟨some "a@b.c", some "s3cret", some "http://q"⟩)
        ⟨"failed", none, some "t1", some "r1", [], some (some "boom")⟩).1 = 500 ∧
    (quiz_solver "s3cret" (.dict ⟨some "a@b.c", some "s3cret", some "http://q"⟩)
        ⟨"failed", none, some "t1", some "r1", [], some (some "boom")⟩).2.lookup "thread_id"
      = some (.jstr "t1") ∧
    (quiz_solver "s3cret" (.dict ⟨some "a@b.c", some "s3cret", some "http://q"⟩)
        ⟨"completed", some "42", some "t1", some "r1", [], none⟩).1 = 200 ∧
    (quiz_solver "s3cret" (.dict ⟨some "a@b.c", some "s3cret", some "http://q"⟩)
        ⟨"completed", some "42", some "t1", some "r1", [], none⟩).2.map Prod.fst
      = ["status", "thread_id", "run_id", "answer", "attachments", "email"] := by
  have h400 := (c9_quiz_endpoint "s3cret" ⟨some "a@b.c", none, some "http://q"⟩
      (solve_quiz_question solveFailWorld)).1 (by decide)
  have h403 := (c9_quiz_endpoint "s3cret" ⟨some "a@b.c", some "wrong", some "http://q"⟩
      (solve_quiz_question solveFailWorld)).2.1 (by decide) (by decide)
  have h500 := (c9_quiz_endpoint "s3cret" ⟨some "a@b.c", some "s3cret", some "http://q"⟩
      ⟨"failed", none, some "t1", some "r1", [], some (some "boom")⟩).2.2.1
      (by decide) (by decide) (by decide)
  have h200 := (c9_quiz_endpoint "s3cret" ⟨some "a@b.c", some "s3cret", some "http://q"⟩
      ⟨"completed", some "42", some "t1", some "r1", [], none⟩).2.2.2
      (by decide) (by decide) (by decide)
  exact ⟨h400, h403, h500.1, h500.2.1, h200.1, h200.2⟩

end TdsProject1
